import Mathlib

/-!
A shallow embedding of the ward-manager backend skeleton: the Express app
shell (health route, 404 handler, global error handler), the
environment-driven configuration loader, the database and Redis connection
wrappers, and the session manager described by the design documents.
-/

/-- A minimal JSON value type for response bodies. -/
inductive Json where
  | str : String → Json
  | num : Int → Json
  | obj : List (String × Json) → Json

/-- Look up a top-level field of a JSON object. -/
def Json.lookupField : Json → String → Option Json
  | Json.obj fields, key => (fields.find? (fun p => p.1 == key)).map Prod.snd
  | _, _ => none

/-- An HTTP request as the app shell sees it: method and path. -/
structure Request where
  method : String
  path : String

/-- An HTTP response: status code and JSON body. -/
structure HttpResponse where
  status : Nat
  body : Json

/-- A thrown JavaScript error: message and stack. -/
structure JsError where
  message : String
  stack : String

/-- The log entry written by the global error handler. -/
structure ErrorLogEntry where
  message : String
  stack : String
  path : String
  method : String

/-- The uniform error envelope produced by the 404 handler and the global error handler. -/
def errorEnvelope (code msg ts : String) : Json :=
  Json.obj [("error", Json.obj [("code", Json.str code), ("message", Json.str msg), ("timestamp", Json.str ts)])]

/-- The health-check handler of App.initializeRoutes: 200 with status, timestamp and uptime. -/
def healthHandler (nowIso : String) (uptime : Int) : HttpResponse :=
  { status := 200
    body := Json.obj [("status", Json.str "ok"), ("timestamp", Json.str nowIso), ("uptime", Json.num uptime)] }

/-- The 404 handler installed after all routes in App.initializeErrorHandling. -/
def notFoundHandler (nowIso : String) : HttpResponse :=
  { status := 404
    body := errorEnvelope "NOT_FOUND" "The requested resource was not found" nowIso }

/-- Route dispatch of the app shell: the only registered route is GET /health;
every other request falls through to the 404 handler. -/
def appHandle (req : Request) (nowIso : String) (uptime : Int) : HttpResponse :=
  if req.method = "GET" ∧ req.path = "/health" then healthHandler nowIso uptime
  else notFoundHandler nowIso

/-- Output of the global error handler: the server-side log entry and the response. -/
structure ErrorHandlerOutput where
  log : ErrorLogEntry
  response : HttpResponse

/-- The global error handler of App.initializeErrorHandling: logs the full error
and returns a 500 whose message is generic only when nodeEnv is production. -/
def globalErrorHandler (nodeEnv : String) (err : JsError) (req : Request) (nowIso : String) : ErrorHandlerOutput :=
  { log := { message := err.message, stack := err.stack, path := req.path, method := req.method }
    response :=
      { status := 500
        body := errorEnvelope "INTERNAL_SERVER_ERROR"
          (if nodeEnv = "production" then "An internal server error occurred" else err.message) nowIso } }

/-- Extract the message field of an error envelope. -/
def envelopeMessage : Json → Option String
  | Json.obj [("error", Json.obj [("code", _), ("message", Json.str m), ("timestamp", _)])] => some m
  | _ => none

/-- Predicate: a JSON value has the uniform error envelope shape with string code, message and timestamp. -/
def isErrorEnvelope (j : Json) : Prop :=
  ∃ code msg ts, j = errorEnvelope code msg ts

/-- C1: a GET request to /health yields status 200 with a JSON body whose status
field is the string ok and which carries the process uptime and a timestamp. -/
theorem health_endpoint_ok (nowIso : String) (uptime : Int) :
    (appHandle ⟨"GET", "/health"⟩ nowIso uptime).status = 200 ∧
    (appHandle ⟨"GET", "/health"⟩ nowIso uptime).body.lookupField "status" = some (Json.str "ok") ∧
    (appHandle ⟨"GET", "/health"⟩ nowIso uptime).body.lookupField "uptime" = some (Json.num uptime) ∧
    (∃ t, (appHandle ⟨"GET", "/health"⟩ nowIso uptime).body.lookupField "timestamp" = some (Json.str t)) := by
  refine ⟨rfl, rfl, rfl, ⟨nowIso, rfl⟩⟩

/-- C2: every request whose method and path are not GET /health receives a 404
response carrying the NOT_FOUND error envelope. -/
theorem only_health_route (req : Request) (nowIso : String) (uptime : Int)
    (h : ¬ (req.method = "GET" ∧ req.path = "/health")) :
    (appHandle req nowIso uptime).status = 404 ∧
    (appHandle req nowIso uptime).body = errorEnvelope "NOT_FOUND" "The requested resource was not found" nowIso := by
  unfold appHandle
  rw [if_neg h]
  exact ⟨rfl, rfl⟩

/-- C2 witness: a POST to /health is not the health route and receives the 404 envelope. -/
theorem only_health_route_witness :
    (appHandle ⟨"POST", "/health"⟩ "ts" 0).status = 404 ∧
    (appHandle ⟨"POST", "/health"⟩ "ts" 0).body = errorEnvelope "NOT_FOUND" "The requested resource was not found" "ts" :=
  only_health_route ⟨"POST", "/health"⟩ "ts" 0 (by decide)

/-- C3: both the 404 handler and the global error handler produce the uniform
error envelope shape with a string code, message and timestamp. -/
theorem error_envelope_uniform (nodeEnv : String) (err : JsError) (req : Request) (nowIso : String) :
    isErrorEnvelope (notFoundHandler nowIso).body ∧
    isErrorEnvelope (globalErrorHandler nodeEnv err req nowIso).response.body :=
  ⟨⟨"NOT_FOUND", "The requested resource was not found", nowIso, rfl⟩,
   ⟨"INTERNAL_SERVER_ERROR",
    (if nodeEnv = "production" then "An internal server error occurred" else err.message), nowIso, rfl⟩⟩

/-- C4 counterexample: outside production the client-visible message equals the
internal error message, so two distinct internal errors yield distinct client messages. -/
theorem error_message_not_generic_counterexample :
    envelopeMessage (globalErrorHandler "development" ⟨"boom", "s"⟩ ⟨"GET", "/x"⟩ "ts").response.body ≠
      envelopeMessage (globalErrorHandler "development" ⟨"other", "s"⟩ ⟨"GET", "/x"⟩ "ts").response.body := by
  decide

/-- C4 amended: every error reaching the global handler yields status 500 and a
full server-side log entry with message, stack, path and method; when nodeEnv is
production the client response is identical for any two internal errors and
independent of the internal message. -/
theorem error_handler_production_generic (nodeEnv : String) (err : JsError) (req : Request) (nowIso : String) :
    (globalErrorHandler nodeEnv err req nowIso).response.status = 500 ∧
    (globalErrorHandler nodeEnv err req nowIso).log =
      { message := err.message, stack := err.stack, path := req.path, method := req.method } ∧
    (nodeEnv = "production" →
      ∀ e2 : JsError, (globalErrorHandler nodeEnv err req nowIso).response =
        (globalErrorHandler nodeEnv e2 req nowIso).response) := by
  refine ⟨rfl, rfl, ?_⟩
  intro h e2
  simp [globalErrorHandler, h]

/-- C4 amended witness: in production two distinct internal errors produce the same response. -/
theorem error_handler_production_generic_witness :
    (globalErrorHandler "production" ⟨"boom", "s"⟩ ⟨"GET", "/x"⟩ "ts").response =
      (globalErrorHandler "production" ⟨"other", "s"⟩ ⟨"GET", "/x"⟩ "ts").response :=
  (error_handler_production_generic "production" ⟨"boom", "s"⟩ ⟨"GET", "/x"⟩ "ts").2.2 rfl ⟨"other", "s"⟩

/-- A process environment: a partial map from variable names to values. -/
def Env : Type := String → Option String

/-- JavaScript parseInt with radix 10: skip leading whitespace, read an optional
sign and then the maximal digit prefix; none models NaN. -/
def jsParseInt (s : String) : Option Int :=
  let cs := s.data.dropWhile Char.isWhitespace
  let signed : Int × List Char :=
    match cs with
    | '-' :: r => (-1, r)
    | '+' :: r => (1, r)
    | r => (1, r)
  let ds := signed.2.takeWhile Char.isDigit
  if ds.isEmpty then none
  else some (signed.1 * ds.foldl (fun n c => n * 10 + Int.ofNat (c.toNat - 48)) 0)

/-- JavaScript or-default on an environment variable: the value when it is set
and truthy (non-empty), the default otherwise. -/
def envOr (env : Env) (key dflt : String) : String :=
  match env key with
  | some v => if v = "" then dflt else v
  | none => dflt

structure ServerConfig where
  nodeEnv : String
  port : Option Int
  apiPrefix : String

structure DatabaseConfig where
  host : String
  port : Option Int
  name : String
  user : String
  password : String
  poolMin : Option Int
  poolMax : Option Int

structure RedisConfig where
  host : String
  port : Option Int
  password : String
  db : Option Int

structure JwtConfig where
  secret : String
  expiresIn : String
  refreshExpiresIn : String

structure SessionConfig where
  timeoutMinutes : Option Int
  warningMinutes : Option Int
  maxDurationHours : Option Int

structure SecurityConfig where
  bcryptRounds : Option Int
  maxLoginAttempts : Option Int
  lockoutDurationMinutes : Option Int
  rateLimitWindowMinutes : Option Int
  rateLimitMaxRequests : Option Int
  authRateLimitWindowMinutes : Option Int
  authRateLimitMaxAttempts : Option Int

structure CorsConfig where
  origin : String
  credentials : Bool

structure LoggingConfig where
  level : String
  filePath : String

/-- The loaded configuration object; numeric fields are Option Int since JavaScript parseInt can yield NaN. -/
structure Config where
  server : ServerConfig
  database : DatabaseConfig
  redis : RedisConfig
  jwt : JwtConfig
  session : SessionConfig
  security : SecurityConfig
  cors : CorsConfig
  logging : LoggingConfig

/-- The config object literal of the configuration module, field by field from the source. -/
def buildConfig (env : Env) : Config :=
  { server :=
      { nodeEnv := envOr env "NODE_ENV" "development"
        port := jsParseInt (envOr env "PORT" "3000")
        apiPrefix := envOr env "API_PREFIX" "/api" }
    database :=
      { host := envOr env "DB_HOST" "localhost"
        port := jsParseInt (envOr env "DB_PORT" "5432")
        name := envOr env "DB_NAME" "ward_manager"
        user := envOr env "DB_USER" "postgres"
        password := envOr env "DB_PASSWORD" "postgres"
        poolMin := jsParseInt (envOr env "DB_POOL_MIN" "2")
        poolMax := jsParseInt (envOr env "DB_POOL_MAX" "10") }
    redis :=
      { host := envOr env "REDIS_HOST" "localhost"
        port := jsParseInt (envOr env "REDIS_PORT" "6379")
        password := envOr env "REDIS_PASSWORD" ""
        db := jsParseInt (envOr env "REDIS_DB" "0") }
    jwt :=
      { secret := envOr env "JWT_SECRET" "your-secret-key-change-in-production"
        expiresIn := envOr env "JWT_EXPIRES_IN" "30m"
        refreshExpiresIn := envOr env "JWT_REFRESH_EXPIRES_IN" "7d" }
    session :=
      { timeoutMinutes := jsParseInt (envOr env "SESSION_TIMEOUT_MINUTES" "30")
        warningMinutes := jsParseInt (envOr env "SESSION_WARNING_MINUTES" "5")
        maxDurationHours := jsParseInt (envOr env "SESSION_MAX_DURATION_HOURS" "12") }
    security :=
      { bcryptRounds := jsParseInt (envOr env "BCRYPT_ROUNDS" "12")
        maxLoginAttempts := jsParseInt (envOr env "MAX_LOGIN_ATTEMPTS" "5")
        lockoutDurationMinutes := jsParseInt (envOr env "LOCKOUT_DURATION_MINUTES" "15")
        rateLimitWindowMinutes := jsParseInt (envOr env "RATE_LIMIT_WINDOW_MINUTES" "1")
        rateLimitMaxRequests := jsParseInt (envOr env "RATE_LIMIT_MAX_REQUESTS" "100")
        authRateLimitWindowMinutes := jsParseInt (envOr env "AUTH_RATE_LIMIT_WINDOW_MINUTES" "15")
        authRateLimitMaxAttempts := jsParseInt (envOr env "AUTH_RATE_LIMIT_MAX_ATTEMPTS" "5") }
    cors :=
      { origin := envOr env "CORS_ORIGIN" "http://localhost:5173"
        credentials := env "CORS_CREDENTIALS" = some "true" }
    logging :=
      { level := envOr env "LOG_LEVEL" "info"
        filePath := envOr env "LOG_FILE_PATH" "./logs/app.log" } }

/-- Loading the configuration module: build the config object, then run the
production-only validation, which throws on the placeholder JWT secret or on an
empty or default database password. -/
def loadConfig (env : Env) : Except String Config :=
  if (buildConfig env).server.nodeEnv = "production" then
    if (buildConfig env).jwt.secret = "your-secret-key-change-in-production" then
      Except.error "JWT_SECRET must be set in production environment"
    else if (buildConfig env).database.password = "" ∨ (buildConfig env).database.password = "postgres" then
      Except.error "DB_PASSWORD must be set securely in production environment"
    else Except.ok (buildConfig env)
  else Except.ok (buildConfig env)

/-- Whether loading the configuration threw. -/
def configThrew (e : Except String Config) : Bool :=
  match e with
  | Except.error _ => true
  | Except.ok _ => false

/-- C5: each config field equals the parse of its environment variable, falling
back to the documented default when the variable is unset; shown for the example
fields server.port, database.poolMax and session.timeoutMinutes, and for a
representative string field database.host. -/
theorem config_env_driven (env : Env) :
    (env "PORT" = none → (buildConfig env).server.port = some 3000) ∧
    (∀ s, env "PORT" = some s → s ≠ "" → (buildConfig env).server.port = jsParseInt s) ∧
    (env "DB_POOL_MAX" = none → (buildConfig env).database.poolMax = some 10) ∧
    (∀ s, env "DB_POOL_MAX" = some s → s ≠ "" → (buildConfig env).database.poolMax = jsParseInt s) ∧
    (env "SESSION_TIMEOUT_MINUTES" = none → (buildConfig env).session.timeoutMinutes = some 30) ∧
    (∀ s, env "SESSION_TIMEOUT_MINUTES" = some s → s ≠ "" →
      (buildConfig env).session.timeoutMinutes = jsParseInt s) ∧
    (env "DB_HOST" = none → (buildConfig env).database.host = "localhost") ∧
    (∀ s, env "DB_HOST" = some s → s ≠ "" → (buildConfig env).database.host = s) := by
  refine ⟨?_, ?_, ?_, ?_, ?_, ?_, ?_, ?_⟩
  · intro h; simp [buildConfig, envOr, h]; decide
  · intro s h hne; simp [buildConfig, envOr, h, hne]
  · intro h; simp [buildConfig, envOr, h]; decide
  · intro s h hne; simp [buildConfig, envOr, h, hne]
  · intro h; simp [buildConfig, envOr, h]; decide
  · intro s h hne; simp [buildConfig, envOr, h, hne]
  · intro h; simp [buildConfig, envOr, h]
  · intro s h hne; simp [buildConfig, envOr, h, hne]

/-- A sample environment setting only PORT. -/
def envSample : Env := fun k => if k = "PORT" then some "8080" else none

/-- C5 witness: under an environment that sets only PORT to 8080, the port is
parsed from the variable and poolMax falls back to its default. -/
theorem config_env_driven_witness :
    (buildConfig envSample).server.port = jsParseInt "8080" ∧
    (buildConfig envSample).database.poolMax = some 10 :=
  ⟨(config_env_driven envSample).2.1 "8080" (by decide) (by decide),
   (config_env_driven envSample).2.2.1 (by decide)⟩

/-- C6: loading the configuration throws iff nodeEnv is production and either
the JWT secret is the placeholder or the database password is empty or the
default postgres; in every non-production environment loading never throws. -/
theorem config_production_validation (env : Env) :
    configThrew (loadConfig env) = true ↔
      ((buildConfig env).server.nodeEnv = "production" ∧
        ((buildConfig env).jwt.secret = "your-secret-key-change-in-production" ∨
          (buildConfig env).database.password = "" ∨
          (buildConfig env).database.password = "postgres")) := by
  unfold loadConfig
  split_ifs with h1 h2 h3 <;> simp [configThrew] <;> tauto

/-- A handle standing for the external pg connection pool object. -/
structure PoolHandle where
  id : Nat

/-- A handle standing for a pooled pg client. -/
structure PClient where
  id : Nat

/-- An abstract pg query result. -/
structure QueryResult where
  rowCount : Nat

/-- A handle standing for the external node-redis client object. -/
structure RedisHandle where
  id : Nat

/-- State of the Database wrapper: the nullable pool field. -/
structure DbState where
  pool : Option PoolHandle

/-- State of the RedisClient wrapper: the nullable client field. -/
structure RedisState where
  client : Option RedisHandle

/-- The exact message thrown by the Database wrapper when the pool is null. -/
def dbNotInitMsg : String := "Database pool not initialized. Call connect() first."

/-- The exact message thrown by the RedisClient wrapper when the client is null. -/
def redisNotInitMsg : String := "Redis client not initialized. Call connect() first."

/-- Database.getClient: throws when the pool is null, else delegates to pool.connect, leaving the state unchanged. -/
def Database.getClient (connEff : PoolHandle → Except String PClient) (s : DbState) :
    Except String PClient × DbState :=
  match s.pool with
  | none => (Except.error dbNotInitMsg, s)
  | some p => (connEff p, s)

/-- Database.query: throws when the pool is null, else delegates to pool.query
(the catch branch logs and rethrows), leaving the state unchanged. -/
def Database.query (queryEff : PoolHandle → String → Option (List String) → Except String QueryResult)
    (s : DbState) (text : String) (params : Option (List String)) :
    Except String QueryResult × DbState :=
  match s.pool with
  | none => (Except.error dbNotInitMsg, s)
  | some p => (queryEff p text params, s)

/-- Database.getPool: throws when the pool is null, else returns the pool. -/
def Database.getPool (s : DbState) : Except String PoolHandle × DbState :=
  match s.pool with
  | none => (Except.error dbNotInitMsg, s)
  | some p => (Except.ok p, s)

/-- Database.disconnect: a no-op when the pool is null; otherwise awaits
pool.end, and only on success clears the pool field. -/
def Database.disconnect (endEff : PoolHandle → Except String Unit) (s : DbState) :
    Except String Unit × DbState :=
  match s.pool with
  | none => (Except.ok (), s)
  | some p =>
    match endEff p with
    | Except.ok _ => (Except.ok (), { pool := none })
    | Except.error e => (Except.error e, s)

/-- RedisClient.getClient: throws when the client is null, else returns the client. -/
def RedisClient.getClient (r : RedisState) : Except String RedisHandle × RedisState :=
  match r.client with
  | none => (Except.error redisNotInitMsg, r)
  | some c => (Except.ok c, r)

/-- RedisClient.set: throws when the client is null; else uses setEx when a
truthy (non-zero) expiration is given and plain set otherwise. -/
def RedisClient.set (setEff : RedisHandle → String → String → Except String Unit)
    (setExEff : RedisHandle → String → Nat → String → Except String Unit)
    (r : RedisState) (key value : String) (expirationSeconds : Option Nat) :
    Except String Unit × RedisState :=
  match r.client with
  | none => (Except.error redisNotInitMsg, r)
  | some c =>
    match expirationSeconds with
    | some n => if n = 0 then (setEff c key value, r) else (setExEff c key n value, r)
    | none => (setEff c key value, r)

/-- RedisClient.get: throws when the client is null, else delegates to the client. -/
def RedisClient.get (getEff : RedisHandle → String → Except String (Option String))
    (r : RedisState) (key : String) : Except String (Option String) × RedisState :=
  match r.client with
  | none => (Except.error redisNotInitMsg, r)
  | some c => (getEff c key, r)

/-- RedisClient.del: throws when the client is null, else delegates to the client. -/
def RedisClient.del (delEff : RedisHandle → String → Except String Unit)
    (r : RedisState) (key : String) : Except String Unit × RedisState :=
  match r.client with
  | none => (Except.error redisNotInitMsg, r)
  | some c => (delEff c key, r)

/-- RedisClient.exists, named existsKey since exists is reserved: throws when
the client is null, else compares the numeric reply with one. -/
def RedisClient.existsKey (existsEff : RedisHandle → String → Except String Nat)
    (r : RedisState) (key : String) : Except String Bool × RedisState :=
  match r.client with
  | none => (Except.error redisNotInitMsg, r)
  | some c => ((existsEff c key).map (fun n => n == 1), r)

/-- RedisClient.expire: throws when the client is null, else delegates to the client. -/
def RedisClient.expire (expireEff : RedisHandle → String → Nat → Except String Unit)
    (r : RedisState) (key : String) (seconds : Nat) : Except String Unit × RedisState :=
  match r.client with
  | none => (Except.error redisNotInitMsg, r)
  | some c => (expireEff c key seconds, r)

/-- RedisClient.disconnect: a no-op when the client is null; otherwise awaits
client.quit, and only on success clears the client field. -/
def RedisClient.disconnect (quitEff : RedisHandle → Except String Unit) (r : RedisState) :
    Except String Unit × RedisState :=
  match r.client with
  | none => (Except.ok (), r)
  | some c =>
    match quitEff c with
    | Except.ok _ => (Except.ok (), { client := none })
    | Except.error e => (Except.error e, r)

/-- C7: every public operation of the two wrappers, called while no connection
is held, throws the not-initialized error and leaves the state unchanged, never
silently returning a result. -/
theorem wrappers_guard_uninitialized
    (connEff : PoolHandle → Except String PClient)
    (queryEff : PoolHandle → String → Option (List String) → Except String QueryResult)
    (setEff : RedisHandle → String → String → Except String Unit)
    (setExEff : RedisHandle → String → Nat → String → Except String Unit)
    (getEff : RedisHandle → String → Except String (Option String))
    (delEff : RedisHandle → String → Except String Unit)
    (existsEff : RedisHandle → String → Except String Nat)
    (expireEff : RedisHandle → String → Nat → Except String Unit)
    (s : DbState) (r : RedisState)
    (text : String) (params : Option (List String))
    (key value : String) (expSecs : Option Nat) (secs : Nat)
    (hs : s.pool = none) (hr : r.client = none) :
    Database.getClient connEff s = (Except.error dbNotInitMsg, s) ∧
    Database.query queryEff s text params = (Except.error dbNotInitMsg, s) ∧
    Database.getPool s = (Except.error dbNotInitMsg, s) ∧
    RedisClient.getClient r = (Except.error redisNotInitMsg, r) ∧
    RedisClient.set setEff setExEff r key value expSecs = (Except.error redisNotInitMsg, r) ∧
    RedisClient.get getEff r key = (Except.error redisNotInitMsg, r) ∧
    RedisClient.del delEff r key = (Except.error redisNotInitMsg, r) ∧
    RedisClient.existsKey existsEff r key = (Except.error redisNotInitMsg, r) ∧
    RedisClient.expire expireEff r key secs = (Except.error redisNotInitMsg, r) := by
  refine ⟨?_, ?_, ?_, ?_, ?_, ?_, ?_, ?_, ?_⟩ <;>
    simp [Database.getClient, Database.query, Database.getPool, RedisClient.getClient,
      RedisClient.set, RedisClient.get, RedisClient.del, RedisClient.existsKey,
      RedisClient.expire, hs, hr]

/-- C7 witness: at the concrete fresh states both wrappers refuse every operation. -/
theorem wrappers_guard_uninitialized_witness :
    Database.getPool ⟨none⟩ = (Except.error dbNotInitMsg, ⟨none⟩) ∧
    RedisClient.get (fun _ _ => Except.ok none) ⟨none⟩ "k" = (Except.error redisNotInitMsg, ⟨none⟩) :=
  ⟨(wrappers_guard_uninitialized (fun _ => Except.ok ⟨0⟩)
      (fun _ _ _ => Except.ok ⟨0⟩) (fun _ _ _ => Except.ok ()) (fun _ _ _ _ => Except.ok ())
      (fun _ _ => Except.ok none) (fun _ _ => Except.ok ()) (fun _ _ => Except.ok 0)
      (fun _ _ _ => Except.ok ()) ⟨none⟩ ⟨none⟩ "q" none "k" "v" none 1 rfl rfl).2.2.1,
   (wrappers_guard_uninitialized (fun _ => Except.ok ⟨0⟩)
      (fun _ _ _ => Except.ok ⟨0⟩) (fun _ _ _ => Except.ok ()) (fun _ _ _ _ => Except.ok ())
      (fun _ _ => Except.ok none) (fun _ _ => Except.ok ()) (fun _ _ => Except.ok 0)
      (fun _ _ _ => Except.ok ()) ⟨none⟩ ⟨none⟩ "q" none "k" "v" none 1 rfl rfl).2.2.2.2.2.1⟩

/-- C8: disconnect on either wrapper is a non-throwing no-op when no connection
is held, running it twice leaves the same state as running it once, and a
successful disconnect from a connected state nulls the handle. -/
theorem disconnect_idempotent
    (endEff : PoolHandle → Except String Unit) (quitEff : RedisHandle → Except String Unit)
    (s : DbState) (r : RedisState) :
    (s.pool = none → Database.disconnect endEff s = (Except.ok (), s)) ∧
    (Database.disconnect endEff (Database.disconnect endEff s).2).2 = (Database.disconnect endEff s).2 ∧
    (∀ p, s.pool = some p → endEff p = Except.ok () → (Database.disconnect endEff s).2.pool = none) ∧
    (r.client = none → RedisClient.disconnect quitEff r = (Except.ok (), r)) ∧
    (RedisClient.disconnect quitEff (RedisClient.disconnect quitEff r).2).2 = (RedisClient.disconnect quitEff r).2 ∧
    (∀ c, r.client = some c → quitEff c = Except.ok () → (RedisClient.disconnect quitEff r).2.client = none) := by
  refine ⟨?_, ?_, ?_, ?_, ?_, ?_⟩
  · intro h; simp [Database.disconnect, h]
  · rcases s with ⟨_ | p⟩
    · simp [Database.disconnect]
    · rcases he : endEff p with e | u <;> simp [Database.disconnect, he]
  · intro p hp he; simp [Database.disconnect, hp, he]
  · intro h; simp [RedisClient.disconnect, h]
  · rcases r with ⟨_ | c⟩
    · simp [RedisClient.disconnect]
    · rcases hq : quitEff c with e | u <;> simp [RedisClient.disconnect, hq]
  · intro c hc hq; simp [RedisClient.disconnect, hc, hq]

/-- C8 witness: with a connected pool whose end call succeeds, one disconnect
nulls the handle, and on the empty Redis state disconnect is a no-op. -/
theorem disconnect_idempotent_witness :
    (Database.disconnect (fun _ => Except.ok ()) ⟨some ⟨1⟩⟩).2.pool = none ∧
    RedisClient.disconnect (fun _ => Except.ok ()) ⟨none⟩ = (Except.ok (), ⟨none⟩) :=
  ⟨(disconnect_idempotent (fun _ => Except.ok ()) (fun _ => Except.ok ())
      ⟨some ⟨1⟩⟩ ⟨none⟩).2.2.1 ⟨1⟩ rfl rfl,
   (disconnect_idempotent (fun _ => Except.ok ()) (fun _ => Except.ok ())
      ⟨some ⟨1⟩⟩ ⟨none⟩).2.2.2.1 rfl⟩

/-- Modelled from the spec: the Session Manager is described in the design
documents but absent from the repository source. A session record carries its
token, owning user, creation time and expiry, with timestamps as naturals. -/
structure Session where
  token : String
  userId : String
  createdAt : Nat
  expiresAt : Nat
deriving DecidableEq

/-- Modelled from the spec: the idle-timeout and max-duration policy owned by the Session Manager. -/
structure SessionPolicy where
  idleTimeout : Nat
  maxDuration : Nat

/-- Modelled from the spec: look up the live session referenced by a token. -/
def findSession (st : List Session) (token : String) : Option Session :=
  st.find? (fun s => s.token == token)

/-- Result of validating a session token. -/
inductive ValidateResult where
  | ok : Session → ValidateResult
  | invalid : ValidateResult
  | expired : ValidateResult
deriving DecidableEq

/-- Modelled from the spec: validate fails with invalid if the token is unknown,
with expired if now exceeds expiresAt or exceeds createdAt plus maxDuration
(hard ceiling regardless of activity), and succeeds otherwise. -/
def validate (pol : SessionPolicy) (st : List Session) (token : String) (now : Nat) : ValidateResult :=
  match findSession st token with
  | none => ValidateResult.invalid
  | some s =>
    if s.expiresAt < now then ValidateResult.expired
    else if s.createdAt + pol.maxDuration < now then ValidateResult.expired
    else ValidateResult.ok s

/-- Modelled from the spec: renew extends expiresAt to now plus idleTimeout but
never past the absolute ceiling createdAt plus maxDuration, and is a no-op
error when validation fails. -/
def renew (pol : SessionPolicy) (st : List Session) (token : String) (now : Nat) :
    Except String Session × List Session :=
  match validate pol st token now with
  | ValidateResult.ok s =>
    (Except.ok { s with expiresAt := min (now + pol.idleTimeout) (s.createdAt + pol.maxDuration) },
      st.map (fun t =>
        if t.token == token
        then { s with expiresAt := min (now + pol.idleTimeout) (s.createdAt + pol.maxDuration) }
        else t))
  | ValidateResult.invalid => (Except.error "invalid session token", st)
  | ValidateResult.expired => (Except.error "session expired", st)

/-- C9: validate succeeds iff the token maps to a stored session with now at
most expiresAt and at most createdAt plus maxDuration, and fails as invalid
exactly when the token is unknown. -/
theorem validate_succeeds_iff (pol : SessionPolicy) (st : List Session) (token : String) (now : Nat) :
    ((∃ s, validate pol st token now = ValidateResult.ok s ∧ findSession st token = some s) ↔
      (∃ s, findSession st token = some s ∧ now ≤ s.expiresAt ∧ now ≤ s.createdAt + pol.maxDuration)) ∧
    (validate pol st token now = ValidateResult.invalid ↔ findSession st token = none) := by
  unfold validate
  rcases hf : findSession st token with _ | s <;> dsimp only
  · simp
  · split_ifs with h1 h2
    · refine ⟨⟨?_, ?_⟩, ⟨?_, ?_⟩⟩
      · rintro ⟨u, hu, _⟩
        exact absurd hu (by simp)
      · rintro ⟨u, hu, hle, _⟩
        injection hu with hu
        subst hu
        exact absurd hle (by omega)
      · intro hx
        simp at hx
      · intro hx
        simp at hx
    · refine ⟨⟨?_, ?_⟩, ⟨?_, ?_⟩⟩
      · rintro ⟨u, hu, _⟩
        exact absurd hu (by simp)
      · rintro ⟨u, hu, _, hle2⟩
        injection hu with hu
        subst hu
        exact absurd hle2 (by omega)
      · intro hx
        simp at hx
      · intro hx
        simp at hx
    · refine ⟨⟨?_, ?_⟩, ⟨?_, ?_⟩⟩
      · intro _
        exact ⟨s, rfl, by omega, by omega⟩
      · intro _
        exact ⟨s, rfl, rfl⟩
      · intro hx
        simp at hx
      · intro hx
        simp at hx

/-- C10: a successful renew returns a session whose expiry is now plus
idleTimeout capped at the absolute ceiling, every session in the post-state
either was already stored or satisfies the ceiling invariant, and when the
session is already expired renew is an error leaving the store unchanged. -/
theorem renew_respects_ceiling (pol : SessionPolicy) (st : List Session) (token : String) (now : Nat) :
    (∀ s', (renew pol st token now).1 = Except.ok s' →
      s'.expiresAt = min (now + pol.idleTimeout) (s'.createdAt + pol.maxDuration) ∧
      s'.expiresAt ≤ s'.createdAt + pol.maxDuration) ∧
    (∀ u, u ∈ (renew pol st token now).2 →
      u ∈ st ∨ u.expiresAt ≤ u.createdAt + pol.maxDuration) ∧
    (validate pol st token now = ValidateResult.expired →
      (∃ e, (renew pol st token now).1 = Except.error e) ∧ (renew pol st token now).2 = st) := by
  unfold renew
  rcases hv : validate pol st token now with s | _ | _ <;> dsimp only
  · refine ⟨?_, ?_, ?_⟩
    · intro s' hs'
      injection hs' with hs'
      subst hs'
      exact ⟨rfl, min_le_right _ _⟩
    · intro u hu
      rw [List.mem_map] at hu
      rcases hu with ⟨t, ht, htu⟩
      by_cases hb : (t.token == token) = true
      · right
        rw [if_pos hb] at htu
        subst htu
        exact min_le_right _ _
      · left
        rw [if_neg hb] at htu
        subst htu
        exact ht
    · intro h
      simp at h
  · refine ⟨?_, ?_, ?_⟩
    · intro s' hs'
      simp at hs'
    · intro u hu
      exact Or.inl hu
    · intro h
      simp at h
  · refine ⟨?_, ?_, ?_⟩
    · intro s' hs'
      simp at hs'
    · intro u hu
      exact Or.inl hu
    · intro _
      exact ⟨⟨"session expired", rfl⟩, rfl⟩

/-- A concrete session store: one session created at time zero expiring at five. -/
def sampleStore : List Session := [⟨"tok", "u1", 0, 5⟩]

/-- A concrete policy: idle timeout ten, max duration eight. -/
def samplePolicy : SessionPolicy := ⟨10, 8⟩

/-- C10 witness: renewing the sample session at time three caps its expiry at
the ceiling, and at time six the session is expired so renew errors and leaves
the store unchanged. -/
theorem renew_respects_ceiling_witness :
    ((⟨"tok", "u1", 0, 8⟩ : Session).expiresAt =
        min (3 + samplePolicy.idleTimeout) ((⟨"tok", "u1", 0, 8⟩ : Session).createdAt + samplePolicy.maxDuration) ∧
      (⟨"tok", "u1", 0, 8⟩ : Session).expiresAt ≤
        (⟨"tok", "u1", 0, 8⟩ : Session).createdAt + samplePolicy.maxDuration) ∧
    ((∃ e, (renew samplePolicy sampleStore "tok" 6).1 = Except.error e) ∧
      (renew samplePolicy sampleStore "tok" 6).2 = sampleStore) :=
  ⟨(renew_respects_ceiling samplePolicy sampleStore "tok" 3).1 ⟨"tok", "u1", 0, 8⟩ (by rfl),
   (renew_respects_ceiling samplePolicy sampleStore "tok" 6).2.2 (by decide)⟩
